import Mathlib

/-
Verification of the geofence evaluation engine of the Praesidium backend.

The embedding below models, over exact rational coordinates and an abstract
distance function, the code of:
  * src/utils/geofence.ts  (isInsideGeofence, isGeofenceActiveNow)
  * src/routes/geofence.ts (the POST /check handler)
  * src/db/schema.ts       (the geofences and geofence_events tables)

The event log is represented as a list sorted by descending timestamp
(newest first); inserting a row with a fresh `new Date()` timestamp is
modelled by prepending.  Random row ids and wall-clock timestamps, which the
evaluator never reads, are not represented.  The floating-point haversine
computation `calculateDistance` is abstracted as a parameter `dist`; the
evaluator only compares its result against the radius.
-/

namespace Praesidium

/-- Event types of the geofence_events table: enter, exit, and the reserved
dwell variant. -/
inductive EventType where
  | enter
  | exit
  | dwell
deriving DecidableEq

/-- Schedule attached to a geofence: weekday numbers (0 = Sunday) and a
daily time window given by two "HH:MM" strings. -/
structure Schedule where
  days : List Nat
  startTime : String
  endTime : String
deriving DecidableEq

/-- A row of the geofences table, restricted to the fields the /check
evaluator reads. -/
structure Geofence where
  id : String
  familyId : String
  childId : Option String
  name : String
  latitude : ℚ
  longitude : ℚ
  radius : ℚ
  notifyEnter : Bool
  notifyExit : Bool
  isActive : Bool
  schedule : Option Schedule
deriving DecidableEq

/-- A row of the geofence_events table, restricted to the fields the
evaluator reads or writes.  The timestamp is implicit in log position. -/
structure GeofenceEvent where
  geofenceId : String
  childId : String
  eventType : EventType
  latitude : ℚ
  longitude : ℚ
deriving DecidableEq

/-- An element of the `events` array returned by POST /check. -/
structure OutEvent where
  geofenceId : String
  geofenceName : String
  eventType : EventType
deriving DecidableEq

/-- The caller of POST /check, as resolved by the auth middleware. -/
structure CheckUser where
  id : String
  familyId : Option String
deriving DecidableEq

/-- The two tables the /check handler touches.  `eventLog` is sorted by
descending timestamp (newest first). -/
structure Store where
  geofences : List Geofence
  eventLog : List GeofenceEvent
deriving DecidableEq

/-- The JSON body returned by POST /check. -/
structure CheckResult where
  events : List OutEvent
  currentZones : List String
deriving DecidableEq

/-- Lexicographic order on character lists, mirroring the code-unit
comparison JavaScript applies to strings (all characters involved in
"HH:MM" schedules are ASCII, where code units and code points agree). -/
def lexLt : List Char → List Char → Bool
  | _, [] => false
  | [], _ :: _ => true
  | a :: as, b :: bs => a < b || (a == b && lexLt as bs)

/-- JavaScript string comparison a < b. -/
def jsStrLt (a b : String) : Bool := lexLt a.data b.data

/-- The evaluation wall clock: weekday number (as returned by getDay) and
the current local time formatted "HH:MM". -/
structure Now where
  day : Nat
  time : String

/-- isInsideGeofence from src/utils/geofence.ts: the haversine distance
from the point to the center, compared inclusively against the radius.
The distance computation is the abstract parameter `dist`. -/
def isInsideGeofence (dist : ℚ → ℚ → ℚ → ℚ → ℚ)
    (pointLat pointLon geofenceLat geofenceLon radiusMeters : ℚ) : Bool :=
  decide (dist pointLat pointLon geofenceLat geofenceLon ≤ radiusMeters)

/-- isGeofenceActiveNow from src/utils/geofence.ts: absent schedule passes;
otherwise the current weekday must be listed and the current "HH:MM" time
must satisfy `startTime <= now <= endTime` under JavaScript string
comparison. -/
def isGeofenceActiveNow (now : Now) (schedule : Option Schedule) : Bool :=
  match schedule with
  | none => true
  | some schedule =>
    if !schedule.days.contains now.day then false
    else !jsStrLt now.time schedule.startTime && !jsStrLt schedule.endTime now.time

/-- The lastStateMap of the /check handler: scanning the fetched events
newest first, the first enter-or-exit row per geofence id wins. -/
def lastStateMap (lastEvents : List GeofenceEvent) (gid : String) : Option EventType :=
  (lastEvents.find? (fun e =>
      decide (e.geofenceId = gid) &&
      (decide (e.eventType = EventType.enter) || decide (e.eventType = EventType.exit)))).map
    (fun e => e.eventType)

/-- The per-geofence loop of the /check handler (src/routes/geofence.ts,
lines 323-379), threading the accumulated response arrays and the event
log.  `lastState` is the map built once before the loop. -/
def checkLoop (dist : ℚ → ℚ → ℚ → ℚ → ℚ) (userId : String) (latitude longitude : ℚ)
    (lastState : String → Option EventType) :
    List Geofence → List OutEvent → List String → List GeofenceEvent →
      List OutEvent × List String × List GeofenceEvent
  | [], events, currentZones, log => (events, currentZones, log)
  | geofence :: rest, events, currentZones, log =>
    let isInside := isInsideGeofence dist latitude longitude
      geofence.latitude geofence.longitude geofence.radius
    let lastSt := lastState geofence.id
    if isInside then
      if decide (lastSt ≠ some EventType.enter) && geofence.notifyEnter then
        checkLoop dist userId latitude longitude lastState rest
          (events ++ [⟨geofence.id, geofence.name, EventType.enter⟩])
          (currentZones ++ [geofence.name])
          (⟨geofence.id, userId, EventType.enter, latitude, longitude⟩ :: log)
      else
        checkLoop dist userId latitude longitude lastState rest
          events (currentZones ++ [geofence.name]) log
    else
      if decide (lastSt = some EventType.enter) && geofence.notifyExit then
        checkLoop dist userId latitude longitude lastState rest
          (events ++ [⟨geofence.id, geofence.name, EventType.exit⟩])
          currentZones
          (⟨geofence.id, userId, EventType.exit, latitude, longitude⟩ :: log)
      else
        checkLoop dist userId latitude longitude lastState rest
          events currentZones log

/-- The POST /check handler of src/routes/geofence.ts: short-circuit for a
family-less caller, candidate selection, applicability filter, schedule
filter, last-state reconstruction limited to the number of active
geofences, then the per-geofence loop.  Returns the response body and the
resulting store. -/
def checkGeofences (dist : ℚ → ℚ → ℚ → ℚ → ℚ) (now : Now) (user : CheckUser)
    (latitude longitude : ℚ) (store : Store) : CheckResult × Store :=
  match user.familyId with
  | none => (⟨[], []⟩, store)
  | some familyId =>
    let familyGeofences := store.geofences.filter
      (fun g => decide (g.familyId = familyId) && g.isActive)
    let applicableGeofences := familyGeofences.filter
      (fun g => g.childId.isNone || decide (g.childId = some user.id))
    let activeGeofences := applicableGeofences.filter
      (fun g => isGeofenceActiveNow now g.schedule)
    let lastEvents := (store.eventLog.filter
      (fun e => decide (e.childId = user.id))).take activeGeofences.length
    let lastState := lastStateMap lastEvents
    let out := checkLoop dist user.id latitude longitude lastState
      activeGeofences [] [] store.eventLog
    (⟨out.1, out.2.1⟩, ⟨store.geofences, out.2.2⟩)

/-- Modelled from the spec (data-model invariant, spec §3): the last known
membership state of a (geofence, child) pair is the eventType of the most
recent enter-or-exit event for that pair in the FULL log, dwell events
ignored.  Used to compare the handler's limited reconstruction against the
specified one. -/
def specLastState (log : List GeofenceEvent) (childId gid : String) : Option EventType :=
  ((log.filter (fun e => decide (e.childId = childId))).find? (fun e =>
      decide (e.geofenceId = gid) &&
      (decide (e.eventType = EventType.enter) || decide (e.eventType = EventType.exit)))).map
    (fun e => e.eventType)

/-- Per-geofence returned event of one loop iteration, as a function of the
precomputed inputs (characterization used by the proofs). -/
def checkOneEvent (dist : ℚ → ℚ → ℚ → ℚ → ℚ) (latitude longitude : ℚ)
    (lastState : String → Option EventType) (geofence : Geofence) : Option OutEvent :=
  if isInsideGeofence dist latitude longitude
      geofence.latitude geofence.longitude geofence.radius then
    if decide (lastState geofence.id ≠ some EventType.enter) && geofence.notifyEnter then
      some ⟨geofence.id, geofence.name, EventType.enter⟩
    else none
  else
    if decide (lastState geofence.id = some EventType.enter) && geofence.notifyExit then
      some ⟨geofence.id, geofence.name, EventType.exit⟩
    else none

/-- Per-geofence inserted row of one loop iteration. -/
def checkOneRow (dist : ℚ → ℚ → ℚ → ℚ → ℚ) (userId : String) (latitude longitude : ℚ)
    (lastState : String → Option EventType) (geofence : Geofence) : Option GeofenceEvent :=
  if isInsideGeofence dist latitude longitude
      geofence.latitude geofence.longitude geofence.radius then
    if decide (lastState geofence.id ≠ some EventType.enter) && geofence.notifyEnter then
      some ⟨geofence.id, userId, EventType.enter, latitude, longitude⟩
    else none
  else
    if decide (lastState geofence.id = some EventType.enter) && geofence.notifyExit then
      some ⟨geofence.id, userId, EventType.exit, latitude, longitude⟩
    else none

/-- Per-geofence currentZones contribution of one loop iteration. -/
def checkOneZone (dist : ℚ → ℚ → ℚ → ℚ → ℚ) (latitude longitude : ℚ)
    (geofence : Geofence) : Option String :=
  if isInsideGeofence dist latitude longitude
      geofence.latitude geofence.longitude geofence.radius then
    some geofence.name
  else none

/-- Constant-zero distance function for concrete scenarios: the submitted
point counts as inside every geofence. -/
def dist0 : ℚ → ℚ → ℚ → ℚ → ℚ := fun _ _ _ _ => 0

/-- Distance function for concrete scenarios that reads the point's
latitude as the distance: latitude 0 is inside a radius-100 fence,
latitude 200 is outside. -/
def distLat : ℚ → ℚ → ℚ → ℚ → ℚ := fun pointLat _ _ _ => pointLat

/-- Concrete evaluation clock: Sunday noon. -/
def now0 : Now := ⟨0, "12:00"⟩

/-- Concrete child caller belonging to family "f". -/
def childC : CheckUser := ⟨"c", some "f"⟩

/-- Concrete family-wide geofence "A". -/
def gA : Geofence := ⟨"A", "f", none, "A", 0, 0, 100, true, true, true, none⟩

/-- Concrete family-wide geofence "B". -/
def gB : Geofence := ⟨"B", "f", none, "B", 0, 0, 100, true, true, true, none⟩

/-- Concrete family-wide geofence "Home". -/
def gHome : Geofence := ⟨"G", "f", none, "Home", 0, 0, 100, true, true, true, none⟩

/-- Concrete geofence with enter notifications disabled. -/
def gQuiet : Geofence := ⟨"Q", "f", none, "Quiet", 0, 0, 100, false, true, true, none⟩

/-- Concrete geofence scoped to a different child than childC. -/
def gOther : Geofence := ⟨"O", "f", some "other", "Other", 0, 0, 100, true, true, true, none⟩

/-- Concrete geofence whose schedule (empty day list) never passes. -/
def gOff : Geofence :=
  ⟨"S", "f", none, "Sched", 0, 0, 100, true, true, true, some ⟨[], "08:00", "20:00"⟩⟩

/-- Event log (newest first) under which the limited last-state fetch
breaks idempotence: child c last exited B and before that entered A. -/
def c1log : List GeofenceEvent :=
  [⟨"B", "c", EventType.exit, 0, 0⟩, ⟨"A", "c", EventType.enter, 0, 0⟩]

/-- Event log (newest first) whose newest row is a dwell event: the
global fetch limit of one row then hides A's older enter state. -/
def c2log : List GeofenceEvent :=
  [⟨"X", "c", EventType.dwell, 0, 0⟩, ⟨"A", "c", EventType.enter, 0, 0⟩]

/-
Characterization lemmas for the evaluation loop.
-/

theorem checkLoop_eq (dist : ℚ → ℚ → ℚ → ℚ → ℚ) (userId : String) (latitude longitude : ℚ)
    (lastState : String → Option EventType) (gs : List Geofence)
    (events : List OutEvent) (zones : List String) (log : List GeofenceEvent) :
    checkLoop dist userId latitude longitude lastState gs events zones log =
      (events ++ gs.filterMap (checkOneEvent dist latitude longitude lastState),
       zones ++ gs.filterMap (checkOneZone dist latitude longitude),
       (gs.filterMap (checkOneRow dist userId latitude longitude lastState)).reverse
         ++ log) := by
  induction gs generalizing events zones log with
  | nil => simp [checkLoop]
  | cons g rest ih =>
    simp only [checkLoop]
    cases hin : isInsideGeofence dist latitude longitude g.latitude g.longitude g.radius
    · by_cases hc : lastState g.id = some EventType.enter ∧ g.notifyExit = true <;>
        simp [hin, hc, ih, checkOneEvent, checkOneRow, checkOneZone, List.filterMap_cons]
    · by_cases hc : ¬lastState g.id = some EventType.enter ∧ g.notifyEnter = true <;>
        simp [hin, hc, ih, checkOneEvent, checkOneRow, checkOneZone, List.filterMap_cons]

theorem filterMap_checkOneZone (dist : ℚ → ℚ → ℚ → ℚ → ℚ) (latitude longitude : ℚ)
    (gs : List Geofence) :
    gs.filterMap (checkOneZone dist latitude longitude) =
      (gs.filter (fun g =>
        isInsideGeofence dist latitude longitude g.latitude g.longitude g.radius)).map
        (fun g => g.name) := by
  induction gs with
  | nil => rfl
  | cons g rest ih =>
    cases h : isInsideGeofence dist latitude longitude g.latitude g.longitude g.radius <;>
      simp [checkOneZone, h, ih]

theorem checkOneEvent_geofenceId (dist : ℚ → ℚ → ℚ → ℚ → ℚ) (latitude longitude : ℚ)
    (lastState : String → Option EventType) (geofence : Geofence) (e : OutEvent)
    (h : checkOneEvent dist latitude longitude lastState geofence = some e) :
    e.geofenceId = geofence.id := by
  unfold checkOneEvent at h
  split at h <;> split at h <;> simp_all <;> exact h ▸ rfl

theorem checkOneRow_geofenceId (dist : ℚ → ℚ → ℚ → ℚ → ℚ) (userId : String)
    (latitude longitude : ℚ) (lastState : String → Option EventType)
    (geofence : Geofence) (r : GeofenceEvent)
    (h : checkOneRow dist userId latitude longitude lastState geofence = some r) :
    r.geofenceId = geofence.id := by
  unfold checkOneRow at h
  split at h <;> split at h <;> simp_all <;> exact h ▸ rfl

/-- C1: the claimed idempotence of evaluation FAILS on the code.  With two
active geofences A and B, an event log (newest first) of exit(B), enter(A),
and a point inside both, the first /check call emits enter(B); the second
call with the same point and no intervening state change then emits a
duplicate enter(A), because the newly inserted row pushes A's older enter
outside the fetch window of size two.  The second call's event list is
[enter A], not []. -/
theorem check_second_call_emits_duplicate_enter :
    (checkGeofences dist0 now0 childC 0 0 ⟨[gA, gB], c1log⟩).1.events =
      [⟨"B", "B", EventType.enter⟩] ∧
    (checkGeofences dist0 now0 childC 0 0
        (checkGeofences dist0 now0 childC 0 0 ⟨[gA, gB], c1log⟩).2).1.events =
      [⟨"A", "A", EventType.enter⟩] := by
  constructor <;> decide

/-- C2: state reconstruction FAILS to match the most recent enter-or-exit
event of the full log.  With one active geofence A and a log whose newest
row for the child is a dwell event, the fetch limit of one row hides A's
older enter: the code's lastStateMap yields none for A while the full-log
reconstruction yields enter, and the evaluation consequently emits a
duplicate enter for A. -/
theorem lastStateMap_limit_omits_older_state :
    lastStateMap ((c2log.filter (fun e => decide (e.childId = "c"))).take 1) "A" = none ∧
    specLastState c2log "c" "A" = some EventType.enter ∧
    (checkGeofences dist0 now0 childC 0 0 ⟨[gA], c2log⟩).1.events =
      [⟨"A", "A", EventType.enter⟩] := by
  refine ⟨by decide, by decide, by decide⟩

/-- C4: boundary inclusivity of the spatial predicate.  For every distance
function, point and circular geofence, isInsideGeofence returns false when
the distance from the point to the center is strictly greater than the
radius, and true when the distance equals the radius (closed disk). -/
theorem isInsideGeofence_boundary_inclusive (dist : ℚ → ℚ → ℚ → ℚ → ℚ)
    (pointLat pointLon geofenceLat geofenceLon radiusMeters : ℚ) :
    (radiusMeters < dist pointLat pointLon geofenceLat geofenceLon →
      isInsideGeofence dist pointLat pointLon geofenceLat geofenceLon radiusMeters = false) ∧
    (dist pointLat pointLon geofenceLat geofenceLon = radiusMeters →
      isInsideGeofence dist pointLat pointLon geofenceLat geofenceLon radiusMeters = true) := by
  constructor
  · intro h
    simp [isInsideGeofence, not_le.mpr h]
  · intro h
    simp [isInsideGeofence, h]

/-- C4 witness: with constant distance 5, radius 3 gives outside and
radius 5 gives inside. -/
theorem isInsideGeofence_boundary_inclusive_witness :
    isInsideGeofence (fun _ _ _ _ => (5 : ℚ)) 0 0 0 0 3 = false ∧
    isInsideGeofence (fun _ _ _ _ => (5 : ℚ)) 0 0 0 0 5 = true :=
  ⟨(isInsideGeofence_boundary_inclusive (fun _ _ _ _ => (5 : ℚ)) 0 0 0 0 3).1 (by norm_num),
   (isInsideGeofence_boundary_inclusive (fun _ _ _ _ => (5 : ℚ)) 0 0 0 0 5).2 rfl⟩

/-- C8: a caller with a null familyId gets the success response with empty
events and currentZones, and the store (geofence table and event log) is
left completely untouched. -/
theorem familyless_child_short_circuit (dist : ℚ → ℚ → ℚ → ℚ → ℚ) (now : Now)
    (user : CheckUser) (latitude longitude : ℚ) (store : Store)
    (h : user.familyId = none) :
    checkGeofences dist now user latitude longitude store = (⟨[], []⟩, store) := by
  simp [checkGeofences, h]

/-- C8 witness: a concrete family-less child against a non-empty store. -/
theorem familyless_child_short_circuit_witness :
    checkGeofences dist0 now0 ⟨"c", none⟩ 0 0 ⟨[gA], c1log⟩ = (⟨[], []⟩, ⟨[gA], c1log⟩) :=
  familyless_child_short_circuit dist0 now0 ⟨"c", none⟩ 0 0 ⟨[gA], c1log⟩ rfl

/-- C9: frame condition of evaluation.  For every call to /check, the
geofence table is returned unchanged, and the event log is changed only by
prepending zero or more newly inserted event rows; nothing is updated or
deleted. -/
theorem check_frame_condition (dist : ℚ → ℚ → ℚ → ℚ → ℚ) (now : Now)
    (user : CheckUser) (latitude longitude : ℚ) (store : Store) :
    (checkGeofences dist now user latitude longitude store).2.geofences =
      store.geofences ∧
    ∃ inserted, (checkGeofences dist now user latitude longitude store).2.eventLog =
      inserted ++ store.eventLog := by
  cases hu : user.familyId with
  | none => simp [checkGeofences, hu]
  | some familyId =>
    constructor
    · simp [checkGeofences, hu]
    · simp only [checkGeofences, hu, checkLoop_eq]
      exact ⟨_, rfl⟩

/-- C5: schedule gating.  A geofence passes the schedule filter iff its
schedule is absent, or the current weekday is listed in schedule.days and
the current "HH:MM" time lies within [startTime, endTime] inclusively
under JavaScript string comparison; and a geofence whose schedule excludes
the current moment contributes neither events nor currentZones membership
to an evaluation, whatever its position, flags and isActive value. -/
theorem schedule_gating (now : Now) (sched : Option Schedule) :
    (isGeofenceActiveNow now sched = true ↔
      sched = none ∨ ∃ s, sched = some s ∧ now.day ∈ s.days ∧
        jsStrLt now.time s.startTime = false ∧ jsStrLt s.endTime now.time = false) ∧
    (∀ (dist : ℚ → ℚ → ℚ → ℚ → ℚ) (u : CheckUser) (latitude longitude : ℚ)
        (gs : List Geofence) (log : List GeofenceEvent) (g : Geofence),
      isGeofenceActiveNow now g.schedule = false →
      (checkGeofences dist now u latitude longitude ⟨gs ++ [g], log⟩).1 =
        (checkGeofences dist now u latitude longitude ⟨gs, log⟩).1) := by
  constructor
  · cases sched with
    | none => simp [isGeofenceActiveNow]
    | some s =>
      simp only [isGeofenceActiveNow]
      by_cases hd : now.day ∈ s.days
      · have hd' : s.days.contains now.day = true := by simpa using hd
        simp [hd, hd', and_assoc]
      · have hd' : s.days.contains now.day = false := by simpa using hd
        simp [hd, hd']
  · intro dist u latitude longitude gs log g hg
    cases hu : u.familyId with
    | none => simp [checkGeofences, hu]
    | some familyId =>
      simp only [checkGeofences, hu]
      have hfilter :
          (((gs ++ [g]).filter (fun g' => decide (g'.familyId = familyId) && g'.isActive)).filter
              (fun g' => g'.childId.isNone || decide (g'.childId = some u.id))).filter
            (fun g' => isGeofenceActiveNow now g'.schedule) =
          ((gs.filter (fun g' => decide (g'.familyId = familyId) && g'.isActive)).filter
              (fun g' => g'.childId.isNone || decide (g'.childId = some u.id))).filter
            (fun g' => isGeofenceActiveNow now g'.schedule) := by
        by_cases h1 : (decide (g.familyId = familyId) && g.isActive) = true
        · by_cases h2 : (g.childId.isNone || decide (g.childId = some u.id)) = true
          · simp [List.filter_append, h1, h2, hg]
          · simp [List.filter_append, h1, h2]
        · simp [List.filter_append, h1]
      rw [hfilter]

/-- C5 witness: a geofence whose schedule lists no weekday contributes
nothing to a concrete evaluation. -/
theorem schedule_gating_witness :
    (checkGeofences dist0 now0 childC 0 0 ⟨[] ++ [gOff], c1log⟩).1 =
      (checkGeofences dist0 now0 childC 0 0 ⟨[], c1log⟩).1 :=
  (schedule_gating now0 none).2 dist0 childC 0 0 [] c1log gOff (by decide)

/-- C7: scope gating.  A geofence whose childId is set to a child other
than the caller contributes nothing to the caller's evaluation: appending
it to the family directory leaves the /check response unchanged. -/
theorem scope_gating (dist : ℚ → ℚ → ℚ → ℚ → ℚ) (now : Now) (u : CheckUser)
    (latitude longitude : ℚ) (gs : List Geofence) (log : List GeofenceEvent)
    (g : Geofence) (a : String)
    (hchild : g.childId = some a) (hne : a ≠ u.id) :
    (checkGeofences dist now u latitude longitude ⟨gs ++ [g], log⟩).1 =
      (checkGeofences dist now u latitude longitude ⟨gs, log⟩).1 := by
  cases hu : u.familyId with
  | none => simp [checkGeofences, hu]
  | some familyId =>
    simp only [checkGeofences, hu]
    have happ : (g.childId.isNone || decide (g.childId = some u.id)) = false := by
      simp [hchild, hne]
    have hfilter :
        (((gs ++ [g]).filter (fun g' => decide (g'.familyId = familyId) && g'.isActive)).filter
            (fun g' => g'.childId.isNone || decide (g'.childId = some u.id))).filter
          (fun g' => isGeofenceActiveNow now g'.schedule) =
        ((gs.filter (fun g' => decide (g'.familyId = familyId) && g'.isActive)).filter
            (fun g' => g'.childId.isNone || decide (g'.childId = some u.id))).filter
          (fun g' => isGeofenceActiveNow now g'.schedule) := by
      by_cases h1 : (decide (g.familyId = familyId) && g.isActive) = true
      · simp [List.filter_append, h1, happ]
      · simp [List.filter_append, h1]
    rw [hfilter]

/-- C7 witness: a geofence scoped to child "other" is invisible to child
"c"'s evaluation within the same family. -/
theorem scope_gating_witness :
    (checkGeofences dist0 now0 childC 0 0 ⟨[gA] ++ [gOther], c1log⟩).1 =
      (checkGeofences dist0 now0 childC 0 0 ⟨[gA], c1log⟩).1 :=
  scope_gating dist0 now0 childC 0 0 [gA] c1log gOther "other" rfl (by decide)

/-- C10: currentZones is history-independent.  For any two event logs and
the same point, directory and clock, /check returns identical currentZones,
and (for a caller in a family) currentZones is exactly the names of the
active, applicable, schedule-passing geofences whose radius contains the
point — prior events and notification flags play no role. -/
theorem currentZones_history_independent (dist : ℚ → ℚ → ℚ → ℚ → ℚ) (now : Now)
    (u : CheckUser) (latitude longitude : ℚ) (gs : List Geofence)
    (log1 log2 : List GeofenceEvent) :
    (checkGeofences dist now u latitude longitude ⟨gs, log1⟩).1.currentZones =
      (checkGeofences dist now u latitude longitude ⟨gs, log2⟩).1.currentZones ∧
    (∀ familyId, u.familyId = some familyId →
      (checkGeofences dist now u latitude longitude ⟨gs, log1⟩).1.currentZones =
        ((((gs.filter (fun g => decide (g.familyId = familyId) && g.isActive)).filter
            (fun g => g.childId.isNone || decide (g.childId = some u.id))).filter
            (fun g => isGeofenceActiveNow now g.schedule)).filter
            (fun g =>
              isInsideGeofence dist latitude longitude g.latitude g.longitude g.radius)).map
          (fun g => g.name)) := by
  have hzones : ∀ (log : List GeofenceEvent) (familyId : String),
      u.familyId = some familyId →
      (checkGeofences dist now u latitude longitude ⟨gs, log⟩).1.currentZones =
        ((((gs.filter (fun g => decide (g.familyId = familyId) && g.isActive)).filter
            (fun g => g.childId.isNone || decide (g.childId = some u.id))).filter
            (fun g => isGeofenceActiveNow now g.schedule)).filter
            (fun g =>
              isInsideGeofence dist latitude longitude g.latitude g.longitude g.radius)).map
          (fun g => g.name) := by
    intro log familyId hu
    simp [checkGeofences, hu, checkLoop_eq, filterMap_checkOneZone]
  constructor
  · cases hu : u.familyId with
    | none => simp [checkGeofences, hu]
    | some familyId => rw [hzones log1 familyId hu, hzones log2 familyId hu]
  · intro familyId hu
    exact hzones log1 familyId hu

/-- C10 witness: two different logs give the same currentZones, equal to
the filter-based characterization. -/
theorem currentZones_history_independent_witness :
    (checkGeofences dist0 now0 childC 0 0 ⟨[gA], c1log⟩).1.currentZones =
      (checkGeofences dist0 now0 childC 0 0 ⟨[gA], []⟩).1.currentZones ∧
    (checkGeofences dist0 now0 childC 0 0 ⟨[gA], c1log⟩).1.currentZones =
      (((([gA].filter (fun g => decide (g.familyId = "f") && g.isActive)).filter
          (fun g => g.childId.isNone || decide (g.childId = some childC.id))).filter
          (fun g => isGeofenceActiveNow now0 g.schedule)).filter
          (fun g => isInsideGeofence dist0 0 0 g.latitude g.longitude g.radius)).map
        (fun g => g.name) :=
  ⟨(currentZones_history_independent dist0 now0 childC 0 0 [gA] c1log []).1,
   (currentZones_history_independent dist0 now0 childC 0 0 [gA] c1log []).2 "f" rfl⟩

/-- C6: notification suppression independence.  A geofence with
notifyEnter = false, evaluated with the point inside its radius and a last
known state other than enter, produces no event (neither in the response
nor as a newly appended log row) but its name still appears in
currentZones; geofence ids are assumed to identify geofences uniquely in
the directory. -/
theorem notifyEnter_suppression_independence (dist : ℚ → ℚ → ℚ → ℚ → ℚ) (now : Now)
    (u : CheckUser) (familyId : String) (latitude longitude : ℚ)
    (gs : List Geofence) (log : List GeofenceEvent) (g : Geofence)
    (hfam : u.familyId = some familyId)
    (hg : g ∈ gs) (hids : ∀ g' ∈ gs, g'.id = g.id → g' = g)
    (hgfam : g.familyId = familyId) (hact : g.isActive = true)
    (happ : g.childId = none ∨ g.childId = some u.id)
    (hsched : isGeofenceActiveNow now g.schedule = true)
    (hnotify : g.notifyEnter = false)
    (hlast : specLastState log u.id g.id ≠ some EventType.enter)
    (hinside : isInsideGeofence dist latitude longitude g.latitude g.longitude g.radius
      = true) :
    g.name ∈ (checkGeofences dist now u latitude longitude ⟨gs, log⟩).1.currentZones ∧
    (∀ e ∈ (checkGeofences dist now u latitude longitude ⟨gs, log⟩).1.events,
      e.geofenceId ≠ g.id) ∧
    (∀ r ∈ (checkGeofences dist now u latitude longitude ⟨gs, log⟩).2.eventLog,
      r.geofenceId = g.id → r ∈ log) := by
  have hmem : g ∈ ((gs.filter (fun g' => decide (g'.familyId = familyId) && g'.isActive)).filter
      (fun g' => g'.childId.isNone || decide (g'.childId = some u.id))).filter
      (fun g' => isGeofenceActiveNow now g'.schedule) := by
    refine List.mem_filter.mpr ⟨List.mem_filter.mpr ⟨List.mem_filter.mpr ⟨hg, ?_⟩, ?_⟩, hsched⟩
    · simp [hgfam, hact]
    · rcases happ with h | h <;> simp [h]
  refine ⟨?_, ?_, ?_⟩
  · simp only [checkGeofences, hfam, checkLoop_eq, List.nil_append, filterMap_checkOneZone]
    exact List.mem_map.mpr ⟨g, List.mem_filter.mpr ⟨hmem, hinside⟩, rfl⟩
  · intro e he heq
    simp only [checkGeofences, hfam, checkLoop_eq, List.nil_append] at he
    obtain ⟨g', hg'mem, hsome⟩ := List.mem_filterMap.mp he
    have hid : g'.id = g.id := by
      have h := checkOneEvent_geofenceId _ _ _ _ g' e hsome
      rw [heq] at h
      exact h.symm
    have hgs : g' ∈ gs :=
      (List.mem_filter.mp (List.mem_filter.mp (List.mem_filter.mp hg'mem).1).1).1
    have hgg : g' = g := hids g' hgs hid
    subst hgg
    simp [checkOneEvent, hinside, hnotify] at hsome
  · intro r hr heq
    simp only [checkGeofences, hfam, checkLoop_eq, List.nil_append] at hr
    rcases List.mem_append.mp hr with hr' | hr'
    · obtain ⟨g', hg'mem, hsome⟩ := List.mem_filterMap.mp (List.mem_reverse.mp hr')
      have hid : g'.id = g.id := by
        have h := checkOneRow_geofenceId _ _ _ _ _ g' r hsome
        rw [heq] at h
        exact h.symm
      have hgs : g' ∈ gs :=
        (List.mem_filter.mp (List.mem_filter.mp (List.mem_filter.mp hg'mem).1).1).1
      have hgg : g' = g := hids g' hgs hid
      subst hgg
      simp [checkOneRow, hinside, hnotify] at hsome
    · exact hr'

/-- C6 witness: the Quiet geofence (notifyEnter off) with an empty prior
log: inside the radius, no event and no inserted row, name reported. -/
theorem notifyEnter_suppression_independence_witness :
    gQuiet.name ∈ (checkGeofences dist0 now0 childC 0 0 ⟨[gQuiet], []⟩).1.currentZones ∧
    (∀ e ∈ (checkGeofences dist0 now0 childC 0 0 ⟨[gQuiet], []⟩).1.events,
      e.geofenceId ≠ gQuiet.id) ∧
    (∀ r ∈ (checkGeofences dist0 now0 childC 0 0 ⟨[gQuiet], []⟩).2.eventLog,
      r.geofenceId = gQuiet.id → r ∈ ([] : List GeofenceEvent)) :=
  notifyEnter_suppression_independence dist0 now0 childC "f" 0 0 [gQuiet] [] gQuiet
    rfl (by decide) (by decide) rfl rfl (Or.inl rfl) rfl rfl (by decide) (by decide)

/-- C3: state-machine coverage.  For a single applicable geofence with no
prior events for the child (state Unknown), an evaluation with the point
inside and notifyEnter = true yields exactly one enter event and the
zone's name in currentZones; the subsequent evaluation with the point
outside and notifyExit = true yields exactly one exit event and the name
absent from currentZones; and any state/input combination matching
neither emission rule appends no event. -/
theorem state_machine_coverage (dist : ℚ → ℚ → ℚ → ℚ → ℚ) (now : Now) (u : CheckUser)
    (familyId : String) (lat1 lon1 lat2 lon2 : ℚ) (g : Geofence)
    (log : List GeofenceEvent)
    (hfam : u.familyId = some familyId)
    (hgfam : g.familyId = familyId) (hact : g.isActive = true)
    (happ : g.childId = none ∨ g.childId = some u.id)
    (hsched : isGeofenceActiveNow now g.schedule = true)
    (hnoprior : ∀ e ∈ log, e.childId = u.id → e.geofenceId ≠ g.id)
    (hE : g.notifyEnter = true) (hX : g.notifyExit = true)
    (hin : isInsideGeofence dist lat1 lon1 g.latitude g.longitude g.radius = true)
    (hout : isInsideGeofence dist lat2 lon2 g.latitude g.longitude g.radius = false) :
    (checkGeofences dist now u lat1 lon1 ⟨[g], log⟩).1.events =
      [⟨g.id, g.name, EventType.enter⟩] ∧
    (checkGeofences dist now u lat1 lon1 ⟨[g], log⟩).1.currentZones = [g.name] ∧
    (checkGeofences dist now u lat2 lon2
        (checkGeofences dist now u lat1 lon1 ⟨[g], log⟩).2).1.events =
      [⟨g.id, g.name, EventType.exit⟩] ∧
    g.name ∉ (checkGeofences dist now u lat2 lon2
        (checkGeofences dist now u lat1 lon1 ⟨[g], log⟩).2).1.currentZones ∧
    (∀ (g' : Geofence) (ls : String → Option EventType) (plat plon : ℚ)
        (lg : List GeofenceEvent),
      ¬(isInsideGeofence dist plat plon g'.latitude g'.longitude g'.radius = true ∧
          ls g'.id ≠ some EventType.enter ∧ g'.notifyEnter = true) →
      ¬(isInsideGeofence dist plat plon g'.latitude g'.longitude g'.radius = false ∧
          ls g'.id = some EventType.enter ∧ g'.notifyExit = true) →
      (checkLoop dist u.id plat plon ls [g'] [] [] lg).1 = []) := by
  have hp1 : (decide (g.familyId = familyId) && g.isActive) = true := by simp [hgfam, hact]
  have hp2 : (g.childId.isNone || decide (g.childId = some u.id)) = true := by
    rcases happ with h | h <;> simp [h]
  have hnone : ∀ k, lastStateMap
      ((log.filter (fun e => decide (e.childId = u.id))).take k) g.id = none := by
    intro k
    have hfind : (((log.filter (fun e => decide (e.childId = u.id))).take k).find? (fun e =>
        decide (e.geofenceId = g.id) &&
        (decide (e.eventType = EventType.enter) ||
          decide (e.eventType = EventType.exit)))) = none := by
      rw [List.find?_eq_none]
      intro e he
      have hel := List.mem_filter.mp (List.mem_of_mem_take he)
      have hchild : e.childId = u.id := by simpa using hel.2
      have hneq := hnoprior e hel.1 hchild
      simp [hneq]
    simp [lastStateMap, hfind]
  have hcall1 : checkGeofences dist now u lat1 lon1 ⟨[g], log⟩ =
      (⟨[⟨g.id, g.name, EventType.enter⟩], [g.name]⟩,
       ⟨[g], ⟨g.id, u.id, EventType.enter, lat1, lon1⟩ :: log⟩) := by
    simp only [checkGeofences, hfam]
    simp [hp1, hp2, hsched, checkLoop_eq, checkOneEvent, checkOneRow, checkOneZone,
      hin, hnone, hE]
  have hlast2 : lastStateMap [⟨g.id, u.id, EventType.enter, lat1, lon1⟩] g.id
      = some EventType.enter := by
    simp [lastStateMap]
  have hcall2 : checkGeofences dist now u lat2 lon2
      ⟨[g], ⟨g.id, u.id, EventType.enter, lat1, lon1⟩ :: log⟩ =
      (⟨[⟨g.id, g.name, EventType.exit⟩], []⟩,
       ⟨[g], ⟨g.id, u.id, EventType.exit, lat2, lon2⟩ ::
         ⟨g.id, u.id, EventType.enter, lat1, lon1⟩ :: log⟩) := by
    simp only [checkGeofences, hfam]
    simp [hp1, hp2, hsched, checkLoop_eq, checkOneEvent, checkOneRow, checkOneZone,
      hout, hlast2, hX]
  refine ⟨by rw [hcall1], by rw [hcall1], by rw [hcall1, hcall2], by rw [hcall1, hcall2]; simp, ?_⟩
  intro g' ls plat plon lg hno1 hno2
  rw [checkLoop_eq]
  suffices h : checkOneEvent dist plat plon ls g' = none by simp [h]
  unfold checkOneEvent
  cases hin' : isInsideGeofence dist plat plon g'.latitude g'.longitude g'.radius
  · by_cases hb : ls g'.id = some EventType.enter
    · have hc : g'.notifyExit = false := by
        cases hcc : g'.notifyExit
        · rfl
        · exact absurd ⟨hin', hb, hcc⟩ hno2
      simp [hb, hc]
    · simp [hb]
  · by_cases hb : ls g'.id = some EventType.enter
    · simp [hb]
    · have hc : g'.notifyEnter = false := by
        cases hcc : g'.notifyEnter
        · rfl
        · exact absurd ⟨hin', hb, hcc⟩ hno1
      simp [hb, hc]

/-- C3 witness: the Home geofence with an empty log under the latitude
distance function: entering at latitude 0, then leaving at latitude 200. -/
theorem state_machine_coverage_witness :
    (checkGeofences distLat now0 childC 0 0 ⟨[gHome], []⟩).1.events =
      [⟨gHome.id, gHome.name, EventType.enter⟩] ∧
    (checkGeofences distLat now0 childC 0 0 ⟨[gHome], []⟩).1.currentZones = [gHome.name] ∧
    (checkGeofences distLat now0 childC 200 0
        (checkGeofences distLat now0 childC 0 0 ⟨[gHome], []⟩).2).1.events =
      [⟨gHome.id, gHome.name, EventType.exit⟩] ∧
    gHome.name ∉ (checkGeofences distLat now0 childC 200 0
        (checkGeofences distLat now0 childC 0 0 ⟨[gHome], []⟩).2).1.currentZones ∧
    (∀ (g' : Geofence) (ls : String → Option EventType) (plat plon : ℚ)
        (lg : List GeofenceEvent),
      ¬(isInsideGeofence distLat plat plon g'.latitude g'.longitude g'.radius = true ∧
          ls g'.id ≠ some EventType.enter ∧ g'.notifyEnter = true) →
      ¬(isInsideGeofence distLat plat plon g'.latitude g'.longitude g'.radius = false ∧
          ls g'.id = some EventType.enter ∧ g'.notifyExit = true) →
      (checkLoop distLat childC.id plat plon ls [g'] [] [] lg).1 = []) :=
  state_machine_coverage distLat now0 childC "f" 0 0 200 0 gHome []
    rfl rfl rfl (Or.inl rfl) rfl (by decide) rfl rfl (by decide) (by decide)

end Praesidium
